import Mathlib

/-!
Verification development for the VFD animation agent
(src/vfd_agent.py, src/frame_capture.py).

The Python source is shallowly embedded: pure string processing becomes
Lean string functions, the effectful pipeline stages (HTTP request,
file writes, the Python compiler, exec, the sandboxed run of the
candidate callable) become explicit inputs describing the outcome the
environment produced, and the stateful components (the bounded queue,
State, the keyboard mailbox) become explicit state-passing functions or
step relations.
-/

namespace VFD

/-! ### Python string primitives used by vfd_agent.py -/

/-- The whitespace set of Python str.strip. -/
def isPyWS (c : Char) : Bool :=
  c = ' ' || c = '\t' || c = '\n' || c = '\r' || c = Char.ofNat 11 || c = Char.ofNat 12

/-- Python str.strip(): drop leading and trailing whitespace. -/
def pyStrip (s : String) : String :=
  String.mk (((s.toList.dropWhile isPyWS).reverse.dropWhile isPyWS).reverse)

/-- Python substring test: needle in hay. -/
def strContains (hay needle : String) : Bool :=
  hay.toList.tails.any (fun t => needle.toList.isPrefixOf t)

/-- ASCII lowercase of one character (Python str.lower on the ASCII
identifiers scanned here). -/
def asciiLower (c : Char) : Char :=
  if 'A' ≤ c ∧ c ≤ 'Z' then Char.ofNat (c.toNat + 32) else c

/-- Python str.lower (ASCII, as used on generated code). -/
def pyLower (s : String) : String := String.mk (s.toList.map asciiLower)

/-- Python str.replace on character lists: replace non-overlapping
occurrences of pat left to right.  The fuel argument (the input length)
makes the recursion structural. -/
def replFuel (pat rep : List Char) : Nat → List Char → List Char
  | _, [] => []
  | 0, s => s
  | fuel + 1, c :: rest =>
    if pat.isPrefixOf (c :: rest) then
      rep ++ replFuel pat rep fuel (List.drop (pat.length - 1) rest)
    else
      c :: replFuel pat rep fuel rest

/-- Python s.replace(pat, rep) for a non-empty pattern. -/
def pyReplace (s pat rep : String) : String :=
  String.mk (replFuel pat.toList rep.toList s.toList.length s.toList)

/-- Python s.split(chr(10)) on character lists. -/
def splitLines : List Char → List (List Char)
  | [] => [[]]
  | c :: rest =>
    match splitLines rest with
    | [] => [[]]
    | l :: ls => if c = '\n' then [] :: l :: ls else (c :: l) :: ls

/-- Python s.split(chr(10)). -/
def pySplitLines (s : String) : List String := (splitLines s.toList).map String.mk

/-- Python s.startswith(pre). -/
def pyStartsWith (s pre : String) : Bool := pre.toList.isPrefixOf s.toList

/-- Python sep.join(lines) for sep = chr(10). -/
def joinLines : List String → String
  | [] => ""
  | [l] => l
  | l :: rest => l ++ "\n" ++ joinLines rest

/-- Python slice s[:n]. -/
def strTake (s : String) (n : Nat) : String := String.mk (s.toList.take n)

/-- Python slice l[-n:] for n > 0: the last n elements. -/
def lastN (n : Nat) (l : List α) : List α := (l.reverse.take n).reverse

/-- A backtick character (chr(96)). -/
def backtickChar : Char := Char.ofNat 96

/-! ### clean_code (vfd_agent.py lines 242-274) -/

/-- Line 244: strip code fences:
raw.replace("  six backticks  ", "").replace(chr(96)*3, "").strip(). -/
def ccCode (raw : String) : String :=
  pyStrip (pyReplace (pyReplace raw (String.mk (List.replicate 6 backtickChar)) "")
    (String.mk (List.replicate 3 backtickChar)) "")

/-- Lines 246: lines = code.split("\n"). -/
def ccLines (raw : String) : List String := pySplitLines (ccCode raw)

/-- Lines 249-259: find the function definition: first a line whose strip
starts with "def funcName", else any line containing "def " whose
lowercase contains "animator". -/
def findDefIdx (lines : List String) (funcName : String) : Option Nat :=
  match lines.findIdx? (fun l => pyStartsWith (pyStrip l) ("def " ++ funcName)) with
  | some i => some i
  | none => lines.findIdx? (fun l => strContains l "def " && strContains (pyLower l) "animator")

/-- The import preamble prepended on success (line 273). -/
def ccPreamble : String := "from cd5220 import DiffAnimator\nimport random\nimport math\n\n"

/-- clean_code(raw_code, func_name) -> (code or None, error string). -/
def clean_code (raw funcName : String) : Option String × String :=
  let lines := ccLines raw
  match findDefIdx lines funcName with
  | none => (none, "No function found")
  | some i =>
    let funcCode := joinLines (lines.drop i)
    if strContains funcCode "write_frame" = false then
      (none, "Missing write_frame")
    else if funcCode.length < 50 then
      (none, "Code too short (" ++ toString funcCode.length ++ " chars)")
    else
      (some (ccPreamble ++ funcCode), "")

/-! ### Configuration constants (vfd_agent.py lines 36-41) -/

def MAX_RETRIES : Nat := 5
def QUEUE_SIZE : Nat := 2

/-- frame_rate=600 passed to the validation DiffAnimator (line 355). -/
def VALIDATION_FRAME_RATE : Nat := 600

/-- duration=1.0 passed to the candidate in run_with_capture (line 367). -/
def VALIDATION_SIM_DURATION : Nat := 1

/-! ### FrameCapture (frame_capture.py) -/

/-- frame_capture.py lines 52-54: normalize a written line to exactly
20 characters: line[:20].ljust(20). -/
def normList (l : List Char) : List Char :=
  l.take 20 ++ List.replicate (20 - (l.take 20).length) ' '

/-- line1[:20].ljust(20) on strings. -/
def normalize20 (s : String) : String := String.mk (normList s.toList)

/-- In-memory FrameCapture state after a capture session: the animation id
and the list of captured (normalized) frames, in capture order. -/
structure FrameCaptureM where
  animation_id : String
  frames : List (String × String)
  deriving DecidableEq, Repr

/-- _capturing_write_frame applied to every write the candidate makes
during one session: each call appends one normalized frame. -/
def captureRun (funcName : String) (writes : List (String × String)) : FrameCaptureM :=
  { animation_id := funcName
    frames := writes.map (fun p => (normalize20 p.1, normalize20 p.2)) }

/-! ### validate_runtime (vfd_agent.py lines 342-395)

The candidate callable is executed on a helper thread against a synthetic
display with frame capture installed and frame_sleep disabled.  Its
observable behaviour at the 2-second wall-clock deadline is one of: it has
not signalled completion (hung); it raised an exception (the helper stores
it and the caller re-raises it, where an IndexError is reported
separately); or it completed, having made some sequence of write_frame
calls. -/

inductive RunBehavior where
  /-- The callable has not signalled completion by the 2.0 s deadline
  (timeout_thread.join(timeout=2.0) returned with result not done). -/
  | hangs
  /-- The callable raised an IndexError with message m (str(e)). -/
  | raisesIndex (m : String)
  /-- The callable raised some other exception with message m (str(e)). -/
  | raisesOther (m : String)
  /-- The callable completed in time after this sequence of
  write_frame(line1, line2) calls. -/
  | completes (writes : List (String × String))
  deriving DecidableEq, Repr

/-- validate_runtime(func, func_name) -> (valid, error_message, frame_capture). -/
def validate_runtime (behavior : RunBehavior) (funcName : String) :
    Bool × String × Option FrameCaptureM :=
  match behavior with
  | .hangs => (false, "Timeout: animation hung (>2s for 1s test)", none)
  | .raisesIndex m => (false, "IndexError: " ++ strTake m 100, none)
  | .raisesOther m => (false, "Runtime crash: " ++ strTake m 100, none)
  | .completes writes => (true, "", some (captureRun funcName writes))

/-! ### generate_code (vfd_agent.py lines 277-330) -/

/-- Outcome of the Ollama HTTP request, as observed by generate_code. -/
inductive GenResponse where
  /-- requests.exceptions.Timeout. -/
  | timeout
  /-- Any other exception e during request/raise_for_status/json. -/
  | transportError (m : String)
  /-- A response whose json "response" field is the given text
  (the empty string when the field is empty or absent). -/
  | ok (text : String)
  deriving DecidableEq, Repr

/-- Result of generate_code: the cleaned code (or none), the error string,
the raw response text, and whether a failed_{func}_attempt{n}.txt
diagnostic artifact was written this attempt (lines 315-321: only when
clean_code rejected a non-empty response). -/
structure GenCodeResult where
  code : Option String
  error : String
  raw : String
  artifact : Bool
  deriving DecidableEq, Repr

def generate_code (resp : GenResponse) (funcName : String) : GenCodeResult :=
  match resp with
  | .timeout => ⟨none, "Timeout", "", false⟩
  | .transportError m => ⟨none, "Error: " ++ strTake m 100, "", false⟩
  | .ok raw =>
    if raw = "" then ⟨none, "Empty response", "", false⟩
    else
      let r := clean_code raw funcName
      ⟨r.1, r.2, raw, r.1.isNone⟩

/-! ### Generator.generate_one (vfd_agent.py lines 456-575)

One attempt consists of: the service request (generate_code), writing the
code file, the syntax check, exec into a fresh namespace, the namespace
lookup of the function, and runtime validation.  The effectful stages are
described by an environment record giving the outcome the Python runtime
produced for each stage of that attempt. -/

structure AttemptEnv where
  /-- The generation-service response for this attempt. -/
  resp : GenResponse
  /-- Whether code_file.write_text succeeded (line 484). -/
  saveOk : Bool
  /-- str(e) of the write failure, when saveOk is false. -/
  saveErrMsg : String
  /-- Result of compile(code): none = valid, some m = the formatted
  "Line lineno: msg" message of the SyntaxError (validate_syntax). -/
  syntaxErr : Option String
  /-- Exception raised by exec(code, namespace): none = none raised. -/
  execErr : Option String
  /-- Whether func_name is present in the namespace after exec. -/
  funcPresent : Bool
  /-- Behaviour of namespace[func_name] under validate_runtime. -/
  runtime : RunBehavior
  deriving DecidableEq, Repr

/-- An Animation as constructed at line 528: name, idea, code, and the
bound callable (represented by its runtime behaviour). -/
structure AnimationM where
  func_name : String
  desc : String
  code : String
  runtime : RunBehavior
  deriving DecidableEq, Repr

/-- Result of one attempt of the retry loop body.  A gen failure is
recorded as "Gen[attempt]: msg" (the only tag embedding the attempt
number); other failures record their entry verbatim. -/
inductive AttemptOut where
  | success (anim : AnimationM) (cap : Option FrameCaptureM)
  | genFail (msg : String) (artifact : Bool)
  | otherFail (entry : String)
  deriving DecidableEq, Repr

def AttemptOut.isSucc : AttemptOut → Bool
  | .success _ _ => true
  | _ => false

/-- The body of one iteration of the attempt loop (lines 472-558). -/
def stepAttempt (env : AttemptEnv) (funcName desc : String) : AttemptOut :=
  let g := generate_code env.resp funcName
  match g.code with
  | none => .genFail g.error g.artifact
  | some code =>
    if env.saveOk = false then .otherFail ("Save: " ++ env.saveErrMsg)
    else
      match env.syntaxErr with
      | some serr => .otherFail ("Syntax: " ++ serr)
      | none =>
        match env.execErr with
        | some cerr => .otherFail ("Compile: " ++ strTake cerr 100)
        | none =>
          if env.funcPresent = false then .otherFail "Function missing"
          else
            match validate_runtime env.runtime funcName with
            | (false, rerr, _) => .otherFail ("Runtime: " ++ rerr)
            | (true, _, cap) => .success ⟨funcName, desc, code, env.runtime⟩ cap

/-- The single terminal outcome recorded for one idea-attempt sequence
(telemetry.log_generation + state.save, lines 532-547 and 563-572). -/
structure Outcome where
  func : String
  desc : String
  status : String
  attempt : Nat
  error : String
  deriving DecidableEq, Repr

/-- The observable result of one generate_one call: the recorded terminal
outcome, the animations put on the queue (in order), the attempt numbers
for which a failed_*.txt artifact was written, and the accumulated error
list. -/
structure GenOneResult where
  outcome : Outcome
  enqueued : List AnimationM
  artifacts : List Nat
  allErrors : List String
  deriving DecidableEq, Repr

/-- The attempt loop: attempts numbered from att, accumulated errors and
artifact attempt numbers; stops at the first success, else exhausts and
records failure with attempt=MAX_RETRIES and the join of the last three
errors (line 561: all_errors[-3:]). -/
def genGo (funcName desc : String) :
    List AttemptEnv → Nat → List String → List Nat → GenOneResult
  | [], _, errs, arts =>
    { outcome := ⟨funcName, desc, "failure", MAX_RETRIES,
        joinLines (lastN 3 errs)⟩
      enqueued := []
      artifacts := arts
      allErrors := errs }
  | env :: rest, att, errs, arts =>
    match stepAttempt env funcName desc with
    | .success anim _cap =>
      { outcome := ⟨funcName, desc, "success", att, ""⟩
        enqueued := [anim]
        artifacts := arts
        allErrors := errs }
    | .genFail m art =>
      genGo funcName desc rest (att + 1)
        (errs ++ ["Gen[" ++ toString att ++ "]: " ++ m])
        (arts ++ if art then [att] else [])
    | .otherFail e =>
      genGo funcName desc rest (att + 1) (errs ++ [e]) arts

/-- generate_one over the per-attempt environments (one per loop
iteration, attempts numbered 1..MAX_RETRIES). -/
def generate_one (envs : List AttemptEnv) (funcName desc : String) : GenOneResult :=
  genGo funcName desc envs 1 [] []

/-! ### The bounded animation queue (queue.Queue(maxsize=QUEUE_SIZE), line 994)

queue.Queue is a fixed-capacity FIFO: put appends at the back and blocks
while the queue is full (so a put step happens only when occupancy is
below capacity), get removes the front element.  A system history is a
sequence of completed put/get steps. -/

inductive QOp (α : Type) where
  | put (a : α)
  | got (a : α)
  deriving DecidableEq, Repr

/-- The queue states reachable from the empty queue, together with the
history of operations that produced them.  The queue content is the list
of items from front to back. -/
inductive QReach (cap : Nat) : List α → List (QOp α) → Prop where
  | empty : QReach cap [] []
  | put {items ops a} : QReach cap items ops → items.length < cap →
      QReach cap (items ++ [a]) (ops ++ [QOp.put a])
  | got {items ops a} : QReach cap (a :: items) ops →
      QReach cap items (ops ++ [QOp.got a])

/-- The sequence of values enqueued in a history, in order. -/
def putsOf (ops : List (QOp α)) : List α :=
  ops.filterMap (fun op => match op with | .put a => some a | .got _ => none)

/-- The sequence of values dequeued in a history, in order. -/
def gotsOf (ops : List (QOp α)) : List α :=
  ops.filterMap (fun op => match op with | .put _ => none | .got a => some a)

/-! ### State (vfd_agent.py lines 156-194) -/

/-- One entry of data["generations"] as appended by State.save. -/
structure GenEntry where
  timestamp : String
  function : String
  description : String
  status : String
  error : String
  deriving DecidableEq, Repr

/-- The in-memory State.data: the capped generations history and the
per-status counters (data.get(status, 0); the initial dict carries
success = 0 and failure = 0, all other statuses are absent, i.e. 0). -/
structure StateData where
  generations : List GenEntry
  counters : String → Nat

/-- The fresh state {"generations": [], "success": 0, "failure": 0}. -/
def initialState : StateData := ⟨[], fun _ => 0⟩

/-- The arguments of one State.save call (the timestamp is the
datetime.now() string observed at the call). -/
structure SaveArgs where
  ts : String
  func : String
  desc : String
  status : String
  error : String
  deriving DecidableEq, Repr

/-- The history entry built at lines 174-180 (error truncated to 200). -/
def entryOf (c : SaveArgs) : GenEntry :=
  ⟨c.ts, c.func, c.desc, c.status, strTake c.error 200⟩

/-- The in-memory mutation of State.save (lines 174-182): append the
entry, increment the counter named by the status, trim the history to
generations[-100:]. -/
def StateData.save (s : StateData) (c : SaveArgs) : StateData :=
  { generations := lastN 100 (s.generations ++ [entryOf c])
    counters := fun k => if k = c.status then s.counters k + 1 else s.counters k }

/-- Folding a sequence of save calls. -/
def runSaves (s : StateData) (calls : List SaveArgs) : StateData :=
  calls.foldl StateData.save s

/-- The whole State.save body as seen by its caller (lines 172-188): the
mutation under the lock, then the persist attempt whose outcome is the
given Except value; the except/debug handler swallows any persist error,
so the call returns normally (Except.ok) in both cases. -/
def StateData.savePy (s : StateData) (c : SaveArgs)
    (persistResult : Except String Unit) : Except String StateData :=
  let s2 := s.save c
  match persistResult with
  | .ok _ => .ok s2
  | .error _e => .ok s2

/-! ### KeyboardListener bookmark mailbox (vfd_agent.py lines 102-107, 122-127)

The listener thread sets bookmark_pressed on each received press of b;
check_and_clear reads the flag, clears it, and returns the value read.
A history is a sequence of press and read events on the flag. -/

inductive KLEvent where
  | press
  | read
  deriving DecidableEq, Repr

/-- One event on the mailbox: the new flag value and, for a read, the
value check_and_clear returned. -/
def klStep (flag : Bool) : KLEvent → Bool × Option Bool
  | .press => (true, none)
  | .read => (false, some flag)

/-- Run a history from a flag value: final flag and the list of values
returned by the reads, in order. -/
def klRun (flag : Bool) : List KLEvent → Bool × List Bool
  | [] => (flag, [])
  | e :: rest =>
    let s := klStep flag e
    let r := klRun s.1 rest
    (r.1, s.2.toList ++ r.2)

/-- The events since the previous read (the suffix after the last read). -/
def sinceLastRead (evs : List KLEvent) : List KLEvent :=
  (evs.reverse.takeWhile (fun e => e ≠ KLEvent.read)).reverse

/-- One playback cycle of DisplayController.run (lines 778-785): the
animation plays, during which the operator presses the bookmark key some
number of times, then the controller reads check_and_clear once and, on a
hit, records exactly one bookmark event for the just-played animation. -/
structure Cycle where
  anim : String
  pressesDuring : Nat
  deriving DecidableEq, Repr

/-- Run the controller over a sequence of playback cycles starting from a
flag value: the final flag and the list of animation ids for which a
bookmark PreferenceEvent was appended, in order. -/
def runCycles (flag : Bool) : List Cycle → Bool × List String
  | [] => (flag, [])
  | c :: rest =>
    let duringPlay := klRun flag (List.replicate c.pressesDuring KLEvent.press)
    let readStep := klStep duringPlay.1 KLEvent.read
    let r := runCycles readStep.1 rest
    (r.1, (if readStep.2 = some true then [c.anim] else []) ++ r.2)

/-! ### FrameCapture save_jsonl / load_jsonl (frame_capture.py lines 115-174)

The JSONL file is modelled as the list of JSON values of its lines
(json.dumps on write and json.loads on read are the Python stdlib
serialization, an inverse pair on these values). -/

inductive JVal where
  | jstr (s : String)
  | jnum (n : Nat)
  | jbool (b : Bool)
  | jobj (fields : List (String × JVal))

/-- Python dict key lookup on an object's field list. -/
def jlookup (fields : List (String × JVal)) (k : String) : Option JVal :=
  (fields.find? (fun p => p.1 == k)).map (fun p => p.2)

/-- Python dict.update(extra) on an insertion-ordered field list:
existing keys keep their position and take the new value, new keys are
appended. -/
def dictUpdate (base extra : List (String × JVal)) : List (String × JVal) :=
  base.map (fun p =>
    match extra.find? (fun q => q.1 == p.1) with
    | some q => (p.1, q.2)
    | none => p)
  ++ extra.filter (fun q => base.all (fun p => p.1 != q.1))

/-- The full_metadata dict of save_jsonl (lines 125-134).  The wall-clock
fields (timestamp, created_at, duration) are non-deterministic float and
datetime readings, passed in as already-encoded values. -/
def fullMetadata (cap : FrameCaptureM) (ts createdAt dur : JVal)
    (metadata : List (String × JVal)) : List (String × JVal) :=
  dictUpdate
    [("animation_id", .jstr cap.animation_id),
     ("timestamp", ts),
     ("created_at", createdAt),
     ("total_frames", .jnum cap.frames.length),
     ("duration", dur)]
    metadata

/-- One frame line of the file (lines 141-147). -/
def frameJson (num : Nat) (l1 l2 : String) : JVal :=
  .jobj [("frame", .jnum num), ("line1", .jstr l1), ("line2", .jstr l2)]

/-- The enumerate(self.frames) loop writing one line per frame. -/
def numberFrames : Nat → List (String × String) → List JVal
  | _, [] => []
  | n, f :: rest => frameJson n f.1 f.2 :: numberFrames (n + 1) rest

/-- save_jsonl: the metadata header line followed by one line per
captured frame. -/
def save_jsonl (cap : FrameCaptureM) (ts createdAt dur : JVal)
    (metadata : List (String × JVal)) : List JVal :=
  .jobj [("_meta", .jobj (fullMetadata cap ts createdAt dur metadata))]
    :: numberFrames 0 cap.frames

/-- Reading one frame line (lines 170-172): frame_data["line1"] and
frame_data["line2"], a KeyError when a key is missing and a TypeError
when the line is not an object. -/
def parseFrameLine (j : JVal) : Except String (JVal × JVal) :=
  match j with
  | .jobj fields =>
    match jlookup fields "line1", jlookup fields "line2" with
    | some a, some b => .ok (a, b)
    | _, _ => .error "KeyError"
  | _ => .error "TypeError"

/-- The frame-reading loop of load_jsonl. -/
def loadFrames : List JVal → Except String (List (JVal × JVal))
  | [] => .ok []
  | j :: rest => do
    let p ← parseFrameLine j
    let ps ← loadFrames rest
    .ok (p :: ps)

/-- load_jsonl (lines 149-174): the first line must be an object holding
the key _meta (else ValueError); the remaining lines yield the frames. -/
def load_jsonl (fileLines : List JVal) : Except String (JVal × List (JVal × JVal)) :=
  match fileLines with
  | [] => .error "JSONDecodeError"
  | first :: rest =>
    match first with
    | .jobj fields =>
      match jlookup fields "_meta" with
      | some meta => (loadFrames rest).map (fun frames => (meta, frames))
      | none => .error "ValueError: Invalid JSONL format"
    | _ => .error "TypeError"

/-! ### Helper lemmas -/

lemma normList_length (l : List Char) : (normList l).length = 20 := by
  simp only [normList, List.length_append, List.length_take, List.length_replicate]
  omega

lemma normalize20_length (s : String) : (normalize20 s).length = 20 := by
  simpa [normalize20, String.length] using normList_length s.toList

lemma loadFrames_numberFrames (frames : List (String × String)) :
    ∀ n, loadFrames (numberFrames n frames)
      = Except.ok (frames.map (fun p => (JVal.jstr p.1, JVal.jstr p.2))) := by
  induction frames with
  | nil => intro n; rfl
  | cons f rest ih =>
    intro n
    have hp : parseFrameLine (frameJson n f.1 f.2) = Except.ok (JVal.jstr f.1, JVal.jstr f.2) := rfl
    simp only [numberFrames, loadFrames, hp, ih (n + 1), List.map_cons]
    rfl

/-- Modelled from the spec: the captured frame count matches
simulated duration × frame rate to within one frame. -/
def specWithinOneFrame (captured expected : Nat) : Bool :=
  (captured ≤ expected + 1) && (expected ≤ captured + 1)

/-! ### Claims -/

/-- C9: State.save never raises to its caller when persisting the
snapshot fails; the persist error is only logged and the in-memory
mutation (history append, trim to the latest 100, counter increment) is
applied exactly as if persistence had succeeded. -/
theorem c9_save_never_raises (s : StateData) (c : SaveArgs)
    (persistResult : Except String Unit) :
    s.savePy c persistResult = Except.ok (s.save c) := by
  cases persistResult <;> rfl

/-- C8 (amended): for every candidate that completes during runtime
validation, validation succeeds and the capture holds exactly one
normalized frame per write_frame call the candidate made — the captured
frame count equals the number of write_frame calls, with no constraint
from simulated duration × frame rate. -/
theorem c8_frames_equal_writes (writes : List (String × String)) (fn : String) :
    validate_runtime (RunBehavior.completes writes) fn
      = (true, "", some (captureRun fn writes))
    ∧ (captureRun fn writes).frames.length = writes.length := by
  exact ⟨rfl, by simp [captureRun]⟩

/-- C8 counterexample: a candidate that writes a single frame and
returns passes runtime validation with 1 captured frame, which is not
within one frame of simulated duration × validation frame rate (600). -/
theorem c8_counterexample :
    (validate_runtime (RunBehavior.completes [("HELLO", "WORLD")]) "anim_demo").1 = true
    ∧ ((validate_runtime (RunBehavior.completes [("HELLO", "WORLD")]) "anim_demo").2.2.map
        (fun cap => cap.frames.length)) = some 1
    ∧ specWithinOneFrame 1 (VALIDATION_SIM_DURATION * VALIDATION_FRAME_RATE) = false := by
  exact ⟨rfl, rfl, by decide⟩

/-- C10: the JSONL write/read round-trip: loading a file written by
save_jsonl returns exactly the session's captured frames in capture
order; the captured frames are the written lines normalized to exactly
20 characters (truncated past 20, right-padded with spaces below 20). -/
theorem c10_jsonl_round_trip (fn : String) (writes : List (String × String))
    (ts createdAt dur : JVal) (metadata : List (String × JVal)) :
    load_jsonl (save_jsonl (captureRun fn writes) ts createdAt dur metadata)
      = Except.ok
          (JVal.jobj (fullMetadata (captureRun fn writes) ts createdAt dur metadata),
           (captureRun fn writes).frames.map (fun p => (JVal.jstr p.1, JVal.jstr p.2)))
    ∧ (captureRun fn writes).frames
        = writes.map (fun p => (normalize20 p.1, normalize20 p.2))
    ∧ ∀ s : String, (normalize20 s).length = 20 := by
  refine ⟨?_, rfl, normalize20_length⟩
  show (loadFrames (numberFrames 0 (captureRun fn writes).frames)).map _ = _
  rw [loadFrames_numberFrames]
  rfl

/-- C2: for every raw generated text in which a function definition is
located but whose extracted body lacks the write_frame call token,
clean_code returns no code with the Missing write_frame reason, and the
attempt records that failure (with a diagnostic artifact) and builds no
Animation. -/
theorem c2_missing_write_frame_rejected (raw fn : String) (i : Nat)
    (hraw : raw ≠ "")
    (hdef : findDefIdx (ccLines raw) fn = some i)
    (hwf : strContains (joinLines ((ccLines raw).drop i)) "write_frame" = false) :
    clean_code raw fn = (none, "Missing write_frame")
    ∧ ∀ (env : AttemptEnv) (desc : String), env.resp = GenResponse.ok raw →
        stepAttempt env fn desc = AttemptOut.genFail "Missing write_frame" true := by
  have h1 : clean_code raw fn = (none, "Missing write_frame") := by
    simp [clean_code, hdef, hwf]
  refine ⟨h1, ?_⟩
  intro env desc hresp
  have h2 : generate_code env.resp fn = ⟨none, "Missing write_frame", raw, true⟩ := by
    rw [hresp]
    simp [generate_code, hraw, h1]
  simp [stepAttempt, h2]

/-- A raw response with a function definition but no write_frame call. -/
def sampleRawNoWF : String := "def anim_w(animator, duration):\n    x = 1"

/-- Witness for C2 at a concrete raw text. -/
theorem c2_witness :
    clean_code sampleRawNoWF "anim_w" = (none, "Missing write_frame")
    ∧ stepAttempt ⟨GenResponse.ok sampleRawNoWF, true, "", none, none, true,
        RunBehavior.hangs⟩ "anim_w" "idea"
        = AttemptOut.genFail "Missing write_frame" true := by
  have h := c2_missing_write_frame_rejected sampleRawNoWF "anim_w" 0
    (by decide) (by decide) (by decide)
  exact ⟨h.1, h.2 _ "idea" rfl⟩

lemma stepAttempt_success_shape {env : AttemptEnv} {fn desc : String}
    {anim : AnimationM} {cap : Option FrameCaptureM}
    (h : stepAttempt env fn desc = AttemptOut.success anim cap) :
    ∃ writes, env.runtime = RunBehavior.completes writes
      ∧ anim.runtime = RunBehavior.completes writes := by
  simp only [stepAttempt] at h
  split at h
  · exact absurd h (by simp)
  · split at h
    · exact absurd h (by simp)
    · split at h
      · exact absurd h (by simp)
      · split at h
        · exact absurd h (by simp)
        · split at h
          · exact absurd h (by simp)
          · split at h
            · exact absurd h (by simp)
            · next heq =>
              cases hr : env.runtime with
              | hangs => rw [hr] at heq; simp [validate_runtime] at heq
              | raisesIndex m => rw [hr] at heq; simp [validate_runtime] at heq
              | raisesOther m => rw [hr] at heq; simp [validate_runtime] at heq
              | completes ws =>
                refine ⟨ws, rfl, ?_⟩
                cases h
                exact hr

lemma genGo_enqueued_completes (fn desc : String) :
    ∀ (envs : List AttemptEnv) (att : Nat) (errs : List String) (arts : List Nat)
      (a : AnimationM), a ∈ (genGo fn desc envs att errs arts).enqueued →
      ∃ writes, a.runtime = RunBehavior.completes writes := by
  intro envs
  induction envs with
  | nil => intro att errs arts a ha; simp [genGo] at ha
  | cons env rest ih =>
    intro att errs arts a ha
    simp only [genGo] at ha
    cases hstep : stepAttempt env fn desc with
    | success anim cap =>
      rw [hstep] at ha
      simp at ha
      subst ha
      obtain ⟨ws, _, hanim⟩ := stepAttempt_success_shape hstep
      exact ⟨ws, hanim⟩
    | genFail m art =>
      rw [hstep] at ha
      exact ih _ _ _ a ha
    | otherFail e =>
      rw [hstep] at ha
      exact ih _ _ _ a ha

/-- C1: a candidate that does not signal completion within the 2-second
wall-clock timeout is classified as hung by validate_runtime (a timeout
error, never success), and every Animation the Generator enqueues comes
from a candidate that completed — never from a hung one. -/
theorem c1_hung_never_success_never_enqueued :
    (∀ fn : String, validate_runtime RunBehavior.hangs fn
        = (false, "Timeout: animation hung (>2s for 1s test)", none))
    ∧ ∀ (envs : List AttemptEnv) (fn desc : String) (a : AnimationM),
        a ∈ (generate_one envs fn desc).enqueued → a.runtime ≠ RunBehavior.hangs := by
  refine ⟨fun fn => rfl, ?_⟩
  intro envs fn desc a ha
  obtain ⟨ws, hws⟩ := genGo_enqueued_completes fn desc envs 1 [] [] a ha
  rw [hws]
  simp

/-- A raw response that clean_code accepts for function anim_w. -/
def sampleRawOK : String :=
  "def anim_w(animator, duration):\n    animator.write_frame(msg1, msg2)"

/-- An attempt environment in which every stage succeeds and the
candidate completes after one write_frame call. -/
def sampleEnvOK : AttemptEnv :=
  ⟨GenResponse.ok sampleRawOK, true, "", none, none, true,
   RunBehavior.completes [("HELLO", "WORLD")]⟩

/-- The animation that run with sampleEnvOK enqueues. -/
def sampleAnimOK : AnimationM :=
  ⟨"anim_w", "idea", ccPreamble ++ "def anim_w(animator, duration):\n    animator.write_frame(msg1, msg2)",
   RunBehavior.completes [("HELLO", "WORLD")]⟩

/-- Witness for C1 at a concrete successful generation run. -/
theorem c1_witness : sampleAnimOK.runtime ≠ RunBehavior.hangs :=
  c1_hung_never_success_never_enqueued.2 [sampleEnvOK] "anim_w" "idea" sampleAnimOK
    (by decide)

lemma genGo_all_fail (fn desc : String) :
    ∀ (envs : List AttemptEnv) (att : Nat) (errs : List String) (arts : List Nat),
      (∀ env ∈ envs, (stepAttempt env fn desc).isSucc = false) →
      (genGo fn desc envs att errs arts).outcome.status = "failure"
      ∧ (genGo fn desc envs att errs arts).outcome.attempt = MAX_RETRIES
      ∧ (genGo fn desc envs att errs arts).outcome.error
          = joinLines (lastN 3 (genGo fn desc envs att errs arts).allErrors)
      ∧ (genGo fn desc envs att errs arts).enqueued = [] := by
  intro envs
  induction envs with
  | nil => intro att errs arts _; exact ⟨rfl, rfl, rfl, rfl⟩
  | cons env rest ih =>
    intro att errs arts hfail
    have hhead := hfail env (List.mem_cons_self env rest)
    have htail : ∀ e ∈ rest, (stepAttempt e fn desc).isSucc = false :=
      fun e he => hfail e (List.mem_cons_of_mem env he)
    simp only [genGo]
    cases hstep : stepAttempt env fn desc with
    | success anim cap => rw [hstep] at hhead; simp [AttemptOut.isSucc] at hhead
    | genFail m art => exact ih _ _ _ htail
    | otherFail e => exact ih _ _ _ htail

/-- C5 (amended): when all MAX_RETRIES attempts of an idea-attempt
sequence fail, exactly one terminal outcome is recorded, with status
failure and attempt count MAX_RETRIES, whose error text is the newline
concatenation of the last 3 entries of the accumulated error list (not
deduplicated), and no Animation is enqueued. -/
theorem c5_failure_records_last_three (envs : List AttemptEnv) (fn desc : String)
    (_hlen : envs.length = MAX_RETRIES)
    (hfail : ∀ env ∈ envs, (stepAttempt env fn desc).isSucc = false) :
    (generate_one envs fn desc).outcome.status = "failure"
    ∧ (generate_one envs fn desc).outcome.attempt = MAX_RETRIES
    ∧ (generate_one envs fn desc).outcome.error
        = joinLines (lastN 3 (generate_one envs fn desc).allErrors)
    ∧ (generate_one envs fn desc).enqueued = [] :=
  genGo_all_fail fn desc envs 1 [] [] hfail

/-- An attempt environment whose syntax check fails (the service returned
code that clean_code accepts, the file write succeeded, compile raised a
SyntaxError). -/
def sampleEnvSyn : AttemptEnv :=
  ⟨GenResponse.ok sampleRawOK, true, "", some "Line 1: invalid syntax", none, true,
   RunBehavior.hangs⟩

/-- Witness for C5: five identical syntax failures. -/
theorem c5_witness :
    (generate_one (List.replicate 5 sampleEnvSyn) "anim_w" "idea").outcome.status = "failure"
    ∧ (generate_one (List.replicate 5 sampleEnvSyn) "anim_w" "idea").outcome.attempt = MAX_RETRIES
    ∧ (generate_one (List.replicate 5 sampleEnvSyn) "anim_w" "idea").outcome.error
        = joinLines (lastN 3 (generate_one (List.replicate 5 sampleEnvSyn) "anim_w" "idea").allErrors)
    ∧ (generate_one (List.replicate 5 sampleEnvSyn) "anim_w" "idea").enqueued = [] :=
  c5_failure_records_last_three (List.replicate 5 sampleEnvSyn) "anim_w" "idea"
    (by decide) (by decide)

/-- Modelled from the spec: the newline concatenation of the last 3
distinct failures from the accumulated error list. -/
def specLastThreeDistinct (errs : List String) : String :=
  joinLines (lastN 3 errs.dedup)

/-- C5 counterexample: when the same failure repeats, the recorded error
text concatenates the last 3 entries verbatim (with duplicates), which
differs from the concatenation of the last 3 distinct failures. -/
theorem c5_counterexample :
    (generate_one (List.replicate 5 sampleEnvSyn) "anim_w" "idea").outcome.status = "failure"
    ∧ (generate_one (List.replicate 5 sampleEnvSyn) "anim_w" "idea").outcome.error
        ≠ specLastThreeDistinct
            (generate_one (List.replicate 5 sampleEnvSyn) "anim_w" "idea").allErrors := by
  exact ⟨by decide, by decide⟩

lemma stepAttempt_syntax_fail (env : AttemptEnv) (fn desc : String) {c m : String}
    (hc : (generate_code env.resp fn).code = some c)
    (hs : env.saveOk = true) (hy : env.syntaxErr = some m) :
    stepAttempt env fn desc = AttemptOut.otherFail ("Syntax: " ++ m) := by
  simp [stepAttempt, hc, hs, hy]

lemma stepAttempt_full_success (env : AttemptEnv) (fn desc : String) {c : String}
    {ws : List (String × String)}
    (hc : (generate_code env.resp fn).code = some c)
    (hs : env.saveOk = true) (hy : env.syntaxErr = none)
    (he : env.execErr = none) (hf : env.funcPresent = true)
    (hr : env.runtime = RunBehavior.completes ws) :
    stepAttempt env fn desc
      = AttemptOut.success ⟨fn, desc, c, RunBehavior.completes ws⟩
          (some (captureRun fn ws)) := by
  simp [stepAttempt, hc, hs, hy, he, hf, hr, validate_runtime]

/-- C6 (amended): when attempts 1 and 2 fail the syntax check and
attempt 3 passes every stage, exactly one terminal outcome is recorded
(status success, attempt count 3) and one Animation is enqueued — but no
failed-attempt diagnostic artifact exists, because failed_*.txt files
are written only when clean_code rejects a response, never for syntax
failures. -/
theorem c6_success_attempt3_no_artifacts
    (e1 e2 e3 e4 e5 : AttemptEnv) (fn desc code1 code2 code3 m1 m2 : String)
    (ws : List (String × String))
    (h1c : (generate_code e1.resp fn).code = some code1) (h1s : e1.saveOk = true)
    (h1y : e1.syntaxErr = some m1)
    (h2c : (generate_code e2.resp fn).code = some code2) (h2s : e2.saveOk = true)
    (h2y : e2.syntaxErr = some m2)
    (h3c : (generate_code e3.resp fn).code = some code3) (h3s : e3.saveOk = true)
    (h3y : e3.syntaxErr = none) (h3e : e3.execErr = none) (h3f : e3.funcPresent = true)
    (h3r : e3.runtime = RunBehavior.completes ws) :
    generate_one [e1, e2, e3, e4, e5] fn desc
      = { outcome := ⟨fn, desc, "success", 3, ""⟩
          enqueued := [⟨fn, desc, code3, RunBehavior.completes ws⟩]
          artifacts := []
          allErrors := ["Syntax: " ++ m1, "Syntax: " ++ m2] } := by
  have s1 := stepAttempt_syntax_fail e1 fn desc h1c h1s h1y
  have s2 := stepAttempt_syntax_fail e2 fn desc h2c h2s h2y
  have s3 := stepAttempt_full_success e3 fn desc h3c h3s h3y h3e h3f h3r
  simp [generate_one, genGo, s1, s2, s3]

/-- A second syntax-failure environment with a different message. -/
def sampleEnvSynB : AttemptEnv :=
  ⟨GenResponse.ok sampleRawOK, true, "", some "Line 2: unexpected indent", none, true,
   RunBehavior.hangs⟩

/-- The cleaned code clean_code produces from sampleRawOK. -/
def sampleCleanOK : String :=
  ccPreamble ++ "def anim_w(animator, duration):\n    animator.write_frame(msg1, msg2)"

/-- Witness for C6 at concrete inputs. -/
theorem c6_witness :
    generate_one [sampleEnvSyn, sampleEnvSynB, sampleEnvOK, sampleEnvOK, sampleEnvOK]
        "anim_w" "idea"
      = { outcome := ⟨"anim_w", "idea", "success", 3, ""⟩
          enqueued := [⟨"anim_w", "idea", sampleCleanOK,
            RunBehavior.completes [("HELLO", "WORLD")]⟩]
          artifacts := []
          allErrors := ["Syntax: " ++ "Line 1: invalid syntax",
                        "Syntax: " ++ "Line 2: unexpected indent"] } :=
  c6_success_attempt3_no_artifacts sampleEnvSyn sampleEnvSynB sampleEnvOK sampleEnvOK
    sampleEnvOK "anim_w" "idea" sampleCleanOK sampleCleanOK sampleCleanOK
    "Line 1: invalid syntax" "Line 2: unexpected indent" [("HELLO", "WORLD")]
    (by decide) rfl rfl (by decide) rfl rfl (by decide) rfl rfl rfl rfl rfl

/-- C6 counterexample: in that scenario the outcome is success at
attempt 3, yet the number of diagnostic artifacts is 0, not 2. -/
theorem c6_counterexample :
    (generate_one [sampleEnvSyn, sampleEnvSynB, sampleEnvOK, sampleEnvOK, sampleEnvOK]
        "anim_w" "idea").outcome
      = ⟨"anim_w", "idea", "success", 3, ""⟩
    ∧ (generate_one [sampleEnvSyn, sampleEnvSynB, sampleEnvOK, sampleEnvOK, sampleEnvOK]
        "anim_w" "idea").artifacts.length ≠ 2 := by
  exact ⟨by decide, by decide⟩

lemma qreach_inv {α : Type} {cap : Nat} {items : List α} {ops : List (QOp α)}
    (h : QReach cap items ops) :
    items.length ≤ cap ∧ gotsOf ops ++ items = putsOf ops := by
  induction h with
  | empty => exact ⟨Nat.zero_le cap, rfl⟩
  | put hr hlt ih =>
    have h2 := ih.2
    refine ⟨by simpa using hlt, ?_⟩
    simp only [putsOf, gotsOf, List.filterMap_append, List.filterMap_cons,
      List.filterMap_nil, List.append_nil] at *
    rw [← h2]
    simp
  | got hr ih =>
    have h2 := ih.2
    refine ⟨?_, ?_⟩
    · have := ih.1
      simp at this
      omega
    · simp only [putsOf, gotsOf, List.filterMap_append, List.filterMap_cons,
        List.filterMap_nil, List.append_nil] at *
      rw [← h2]
      simp

/-- C3: in every reachable state of the animation queue
(queue.Queue(maxsize=QUEUE_SIZE)), occupancy never exceeds QUEUE_SIZE,
and the sequence of dequeued animations followed by the current content
equals the sequence of enqueued animations — dequeue order is exactly
enqueue order (FIFO). -/
theorem c3_queue_bounded_fifo (items : List AnimationM) (ops : List (QOp AnimationM))
    (h : QReach QUEUE_SIZE items ops) :
    items.length ≤ QUEUE_SIZE ∧ gotsOf ops ++ items = putsOf ops :=
  qreach_inv h

/-- A second sample animation for the queue witness. -/
def sampleAnimB : AnimationM :=
  ⟨"anim_b", "idea b", "code b", RunBehavior.completes []⟩

/-- Witness for C3: put sampleAnimOK, put sampleAnimB, get sampleAnimOK. -/
theorem c3_witness :
    [sampleAnimB].length ≤ QUEUE_SIZE
    ∧ gotsOf [QOp.put sampleAnimOK, QOp.put sampleAnimB, QOp.got sampleAnimOK]
        ++ [sampleAnimB]
      = putsOf [QOp.put sampleAnimOK, QOp.put sampleAnimB, QOp.got sampleAnimOK] :=
  c3_queue_bounded_fifo [sampleAnimB]
    [QOp.put sampleAnimOK, QOp.put sampleAnimB, QOp.got sampleAnimOK]
    (QReach.got (QReach.put (QReach.put QReach.empty (by decide)) (by decide)))

lemma lastN_append_left (n : Nat) (l m : List α) :
    lastN n (lastN n l ++ m) = lastN n (l ++ m) := by
  simp only [lastN, List.reverse_append, List.reverse_reverse]
  rw [List.take_append_eq_append_take, List.take_append_eq_append_take, List.take_take,
    Nat.min_eq_left (Nat.sub_le n m.reverse.length)]

lemma lastN_of_le {n : Nat} {l : List α} (h : l.length ≤ n) : lastN n l = l := by
  simp only [lastN]
  rw [List.take_of_length_le (by simpa using h), List.reverse_reverse]

lemma lastN_length_le (n : Nat) (l : List α) : (lastN n l).length ≤ n := by
  simp only [lastN, List.length_reverse, List.length_take]
  exact Nat.min_le_left n l.length

lemma save_counter_sum (s : StateData) (c : SaveArgs)
    (h : c.status = "success" ∨ c.status = "failure") :
    (s.save c).counters "success" + (s.save c).counters "failure"
      = s.counters "success" + s.counters "failure" + 1 := by
  rcases h with h | h <;> simp [StateData.save, h] <;> omega

lemma runSaves_inv (calls : List SaveArgs) :
    ∀ s : StateData,
      (∀ c ∈ calls, c.status = "success" ∨ c.status = "failure") →
      s.generations.length ≤ 100 →
      (runSaves s calls).counters "success" + (runSaves s calls).counters "failure"
        = s.counters "success" + s.counters "failure" + calls.length
      ∧ (runSaves s calls).generations = lastN 100 (s.generations ++ calls.map entryOf) := by
  induction calls with
  | nil =>
    intro s _ hlen
    refine ⟨rfl, ?_⟩
    show s.generations = lastN 100 (s.generations ++ [])
    rw [List.append_nil, lastN_of_le hlen]
  | cons c cs ih =>
    intro s h hlen
    have hhead := h c (List.mem_cons_self c cs)
    have htail : ∀ x ∈ cs, x.status = "success" ∨ x.status = "failure" :=
      fun x hx => h x (List.mem_cons_of_mem c hx)
    have hlen2 : (s.save c).generations.length ≤ 100 := lastN_length_le 100 _
    obtain ⟨ihsum, ihgen⟩ := ih (s.save c) htail hlen2
    constructor
    · show (runSaves (s.save c) cs).counters "success"
        + (runSaves (s.save c) cs).counters "failure" = _
      rw [ihsum, save_counter_sum s c hhead]
      simp only [List.length_cons]
      omega
    · show (runSaves (s.save c) cs).generations = _
      rw [ihgen]
      show lastN 100 ((lastN 100 (s.generations ++ [entryOf c])) ++ cs.map entryOf) = _
      rw [lastN_append_left, List.append_assoc]
      rfl

/-- C4: after any sequence of State.save calls with statuses success or
failure, the sum of the success and failure counters equals the number
of terminal outcomes recorded, while the retained history is exactly the
latest 100 entries in append order — the counters are independent of the
capped history window. -/
theorem c4_counters_and_history (calls : List SaveArgs)
    (h : ∀ c ∈ calls, c.status = "success" ∨ c.status = "failure") :
    (runSaves initialState calls).counters "success"
      + (runSaves initialState calls).counters "failure" = calls.length
    ∧ (runSaves initialState calls).generations = lastN 100 (calls.map entryOf) := by
  have h2 := runSaves_inv calls initialState h (by simp [initialState])
  simpa [initialState] using h2

/-- Concrete save calls for the C4 witness. -/
def sampleSaves : List SaveArgs :=
  [⟨"t1", "anim_1", "idea one", "success", ""⟩,
   ⟨"t2", "anim_2", "idea two", "failure", "Syntax: bad"⟩,
   ⟨"t3", "anim_3", "idea three", "failure", "Runtime: crash"⟩]

/-- Witness for C4: three saves, one success and two failures. -/
theorem c4_witness :
    (runSaves initialState sampleSaves).counters "success"
      + (runSaves initialState sampleSaves).counters "failure" = sampleSaves.length
    ∧ (runSaves initialState sampleSaves).generations
        = lastN 100 (sampleSaves.map entryOf) :=
  c4_counters_and_history sampleSaves (by decide)

lemma klRun_append (l1 l2 : List KLEvent) : ∀ f,
    klRun f (l1 ++ l2)
      = ((klRun (klRun f l1).1 l2).1,
         (klRun f l1).2 ++ (klRun (klRun f l1).1 l2).2) := by
  induction l1 with
  | nil => intro f; simp [klRun]
  | cons e rest ih => intro f; simp [klRun, ih, List.append_assoc]

lemma klRun_presses (n : Nat) : ∀ f,
    klRun f (List.replicate n KLEvent.press) = (f || decide (n ≠ 0), []) := by
  induction n with
  | zero => intro f; simp [klRun]
  | succ n ih => intro f; simp [List.replicate_succ, klRun, klStep, ih]

lemma runCycles_events (cs : List Cycle) :
    (runCycles false cs).2
      = (cs.filter (fun c => c.pressesDuring != 0)).map Cycle.anim := by
  induction cs with
  | nil => simp [runCycles]
  | cons c rest ih =>
    simp only [runCycles, klRun_presses, klStep, Bool.false_or]
    by_cases hn : c.pressesDuring = 0
    · simp [hn, ih]
    · simp [hn, ih]

lemma klRun_flag_characterization (evs : List KLEvent) :
    (klRun false evs).1 = (sinceLastRead evs).any (fun e => e == KLEvent.press) := by
  induction evs using List.reverseRecOn with
  | nil => simp [klRun, sinceLastRead]
  | append_singleton l e ih =>
    cases e with
    | press =>
      simp [klRun_append, klRun, klStep, sinceLastRead, List.takeWhile, List.any_append]
    | read =>
      simp [klRun_append, klRun, klStep, sinceLastRead, List.takeWhile]

/-- C7: bookmark presses are edge-triggered: over any sequence of
playback cycles, exactly one bookmark PreferenceEvent is recorded per
cycle with at least one press, attributed to the animation of that
cycle (a second press before the read adds nothing); each
check_and_clear read returns true iff at least one press occurred since
the previous read and always leaves the flag cleared; pressing is
idempotent on the flag state. -/
theorem c7_bookmark_edge_triggered :
    (∀ cs : List Cycle, (runCycles false cs).2
        = (cs.filter (fun c => c.pressesDuring != 0)).map Cycle.anim)
    ∧ (∀ evs : List KLEvent,
        (klRun false (evs ++ [KLEvent.read])).2
          = (klRun false evs).2 ++ [(klRun false evs).1]
        ∧ (klRun false (evs ++ [KLEvent.read])).1 = false)
    ∧ (∀ evs : List KLEvent,
        (klRun false evs).1 = (sinceLastRead evs).any (fun e => e == KLEvent.press))
    ∧ (∀ (f : Bool) (evs : List KLEvent),
        (klRun f (evs ++ [KLEvent.press, KLEvent.press])).1
          = (klRun f (evs ++ [KLEvent.press])).1) := by
  refine ⟨runCycles_events, ?_, klRun_flag_characterization, ?_⟩
  · intro evs
    constructor
    · simp [klRun_append, klRun, klStep]
    · simp [klRun_append, klRun, klStep]
  · intro f evs
    simp [klRun_append, klRun, klStep]

end VFD
